import Mathlib

/-!
# Verification of the Livly integration core (api.py, coordinator.py)

Shallow embedding of the Livly API client and data-update coordinator.
Timestamps are modelled as integers (seconds).  Each network-performing
operation takes the HTTP response it would observe as an explicit
parameter (`Http α`), and returns, besides its result, the updated
client state, the ordered list of HTTP calls attempted, and the number
of times `refresh_access_token` was invoked.
-/

deriving instance DecidableEq for Except

namespace Livly

/-- Python truthiness of an optional string: `None` and `""` are falsy. -/
def strFalsy : Option String → Bool
  | none => true
  | some s => s == ""

/-- Python truthiness of an optional integer: `None` and `0` are falsy
(`if not self._user_id`). -/
def intFalsy : Option Int → Bool
  | none => true
  | some n => n == 0

/-- In-memory credential holder of `LivlyApiClient` (api.py lines 40-45). -/
structure ClientState where
  access_token : Option String
  refresh_token : Option String
  id_token : Option String
  token_expires_at : Int
  user_id : Option Int
  deriving Repr, DecidableEq

/-- The two domain error kinds raised by the client (api.py lines 24-29). -/
inductive Err where
  | authError (msg : String)
  | apiError (msg : String)
  deriving Repr, DecidableEq

/-- An observed HTTP exchange: either a transport-layer failure
(`aiohttp.ClientError`) or a response with a status code and a parsed body. -/
inductive Http (α : Type) where
  | transportErr (msg : String)
  | response (status : Nat) (body : α)
  deriving Repr, DecidableEq

/-- The HTTP calls the client can attempt, in program order. -/
inductive Call where
  | postPasswordlessStart
  | postOauthToken
  | getUserMe
  | postPackages (user_id : Option Int)
  deriving Repr, DecidableEq

/-- Result shape of every client operation: outcome, state after the
operation, HTTP calls attempted in order, number of
`refresh_access_token` invocations. -/
abbrev R (α : Type) := Except Err α × ClientState × List Call × Nat

/-- Body of a successful `/oauth/token` response to the OTP-verification
grant: all four fields are read unconditionally (api.py lines 150-153). -/
structure TokenBundle where
  access_token : String
  refresh_token : String
  id_token : String
  expires_in : Int
  deriving Repr, DecidableEq

/-- Body of a successful `/oauth/token` response to the refresh grant:
`refresh_token` and `id_token` are optional (`data.get`, api.py
lines 190-191). -/
structure RefreshBody where
  access_token : String
  expires_in : Int
  refresh_token : Option String
  id_token : Option String
  deriving Repr, DecidableEq

/-- The `Data` payload of `/api/livly/users/me` (api.py line 233). -/
structure UserMeBody where
  userId : Int
  deriving Repr, DecidableEq

/-- An opaque vendor-defined package record, passed through as-is. -/
structure Package where
  fields : List (String × String)
  deriving Repr, DecidableEq

/-- Body of the packages response; the `Data` key may be absent
(`data.get("Data", [])`, api.py line 272). -/
structure PackagesBody where
  Data : Option (List Package)
  deriving Repr, DecidableEq

/-- `LivlyApiClient.request_otp` (api.py lines 89-119). -/
def request_otp (resp : Http Unit) (s : ClientState) : R Bool :=
  match resp with
  | .response status _ =>
    if status == 200 then
      (.ok true, s, [.postPasswordlessStart], 0)
    else
      (.error (.authError s!"Failed to send OTP: {status}"), s, [.postPasswordlessStart], 0)
  | .transportErr msg =>
    (.error (.authError s!"Connection error: {msg}"), s, [.postPasswordlessStart], 0)

/-- `LivlyApiClient.verify_otp` (api.py lines 121-159). -/
def verify_otp (now : Int) (resp : Http TokenBundle) (s : ClientState) : R TokenBundle :=
  match resp with
  | .response status data =>
    if status == 200 then
      let s' : ClientState :=
        { s with
          access_token := some data.access_token
          refresh_token := some data.refresh_token
          id_token := some data.id_token
          token_expires_at := now + data.expires_in }
      (.ok data, s', [.postOauthToken], 0)
    else
      (.error (.authError s!"Invalid OTP code: {status}"), s, [.postOauthToken], 0)
  | .transportErr msg =>
    (.error (.authError s!"Connection error: {msg}"), s, [.postOauthToken], 0)

/-- `LivlyApiClient.refresh_access_token` (api.py lines 161-198). -/
def refresh_access_token (now : Int) (resp : Http RefreshBody) (s : ClientState) : R Bool :=
  if strFalsy s.refresh_token then
    (.error (.authError "No refresh token available"), s, [], 1)
  else
    match resp with
    | .response status data =>
      if status == 200 then
        let s' : ClientState :=
          { s with
            access_token := some data.access_token
            refresh_token := match data.refresh_token with
              | some r => some r
              | none => s.refresh_token
            id_token := match data.id_token with
              | some i => some i
              | none => s.id_token
            token_expires_at := now + data.expires_in }
        (.ok true, s', [.postOauthToken], 1)
      else
        (.error (.authError s!"Token refresh failed: {status}"), s, [.postOauthToken], 1)
    | .transportErr msg =>
      (.error (.authError s!"Connection error: {msg}"), s, [.postOauthToken], 1)

/-- `LivlyApiClient._ensure_valid_token` (api.py lines 206-213). -/
def ensure_valid_token (now : Int) (resp : Http RefreshBody) (s : ClientState) : R Unit :=
  if strFalsy s.access_token then
    (.error (.authError "Not authenticated"), s, [], 0)
  else if now > s.token_expires_at - 300 then
    let (r, s', cs, n) := refresh_access_token now resp s
    match r with
    | .ok _ => (.ok (), s', cs, n)
    | .error e => (.error e, s', cs, n)
  else
    (.ok (), s, [], 0)

/-- `LivlyApiClient.get_user_info` (api.py lines 215-239).
`renv` is the response the embedded token refresh would observe. -/
def get_user_info (now : Int) (renv : Http RefreshBody) (uenv : Http UserMeBody)
    (s : ClientState) : R UserMeBody :=
  let (r, s1, cs, n) := ensure_valid_token now renv s
  match r with
  | .error e => (.error e, s1, cs, n)
  | .ok _ =>
    match uenv with
    | .response status data =>
      if status == 200 then
        ((.ok data : Except Err UserMeBody), { s1 with user_id := some data.userId },
          cs ++ [.getUserMe], n)
      else
        (.error (.apiError s!"Failed to get user info: {status}"), s1, cs ++ [.getUserMe], n)
    | .transportErr msg =>
      (.error (.apiError s!"Connection error: {msg}"), s1, cs ++ [.getUserMe], n)

/-- `LivlyApiClient.get_pending_packages` (api.py lines 241-277).
`renv1` feeds the operation's own `_ensure_valid_token`; `renv2` and
`uenv` feed the `get_user_info` call made when no user id is cached. -/
def get_pending_packages (now : Int) (renv1 renv2 : Http RefreshBody)
    (uenv : Http UserMeBody) (penv : Http PackagesBody)
    (s : ClientState) : R (List Package) :=
  let (r, s1, cs1, n1) := ensure_valid_token now renv1 s
  match r with
  | .error e => (.error e, s1, cs1, n1)
  | .ok _ =>
    let step2 : R Unit :=
      if intFalsy s1.user_id then
        let (ru, s2, cs2, n2) := get_user_info now renv2 uenv s1
        match ru with
        | .error e => (.error e, s2, cs1 ++ cs2, n1 + n2)
        | .ok _ => (.ok (), s2, cs1 ++ cs2, n1 + n2)
      else
        (.ok (), s1, cs1, n1)
    match step2 with
    | (.error e, s2, cs, n) => (.error e, s2, cs, n)
    | (.ok _, s2, cs, n) =>
      match penv with
      | .response status data =>
        if status == 200 then
          ((.ok ((data.Data).getD []) : Except Err (List Package)), s2,
            cs ++ [.postPackages s2.user_id], n)
        else
          (.error (.apiError s!"Failed to get packages: {status}"), s2,
            cs ++ [.postPackages s2.user_id], n)
      | .transportErr msg =>
        (.error (.apiError s!"Connection error: {msg}"), s2,
          cs ++ [.postPackages s2.user_id], n)

/-! ## Coordinator (coordinator.py) -/

/-- A value stored in the config entry's data mapping.  `none` stands
for Python `None`, and is also what `dict.get` yields for a missing
key; values of different Python types compare unequal. -/
inductive ConfValue where
  | nil
  | str (s : String)
  | num (n : Int)
  deriving Repr, DecidableEq

/-- `d.get(k)` on the entry-data dictionary (missing key gives `None`). -/
def dictGet (d : List (String × ConfValue)) (k : String) : ConfValue :=
  match d.find? (fun p => p.1 == k) with
  | some p => p.2
  | none => .nil

/-- `d[k] = v` on the entry-data dictionary: replace in place if the key
exists, else append (Python dicts keep insertion order). -/
def dictSet (d : List (String × ConfValue)) (k : String) (v : ConfValue) :
    List (String × ConfValue) :=
  if d.any (fun p => p.1 == k) then
    d.map (fun p => if p.1 == k then (k, v) else p)
  else d ++ [(k, v)]

/-- The client's optional string token as the Python value compared
against and stored into the entry data. -/
def optStrVal : Option String → ConfValue
  | none => .nil
  | some s => .str s

def CONF_ACCESS_TOKEN : String := "access_token"
def CONF_REFRESH_TOKEN : String := "refresh_token"
def CONF_ID_TOKEN : String := "id_token"
def CONF_TOKEN_EXPIRES_AT : String := "token_expires_at"

/-- `LivlyDataUpdateCoordinator._update_stored_tokens` (coordinator.py
lines 101-120).  Returns the final entry data together with whether
`async_update_entry` was called. -/
def update_stored_tokens (c : ClientState) (entry : List (String × ConfValue)) :
    List (String × ConfValue) × Bool :=
  let d0 := entry
  let (d1, u1) :=
    if optStrVal c.access_token ≠ dictGet d0 CONF_ACCESS_TOKEN then
      (dictSet d0 CONF_ACCESS_TOKEN (optStrVal c.access_token), true)
    else (d0, false)
  let (d2, u2) :=
    if optStrVal c.refresh_token ≠ dictGet d1 CONF_REFRESH_TOKEN then
      (dictSet d1 CONF_REFRESH_TOKEN (optStrVal c.refresh_token), true)
    else (d1, u1)
  let (d3, u3) :=
    if optStrVal c.id_token ≠ dictGet d2 CONF_ID_TOKEN then
      (dictSet d2 CONF_ID_TOKEN (optStrVal c.id_token), true)
    else (d2, u2)
  let (d4, u4) :=
    if ConfValue.num c.token_expires_at ≠ dictGet d3 CONF_TOKEN_EXPIRES_AT then
      (dictSet d3 CONF_TOKEN_EXPIRES_AT (.num c.token_expires_at), true)
    else (d3, u3)
  (d4, u4)

/-- The coordinator's data snapshot: `{"pending_packages": ..., "pending_count": ...}`. -/
structure PollResult where
  pending_packages : List Package
  pending_count : Nat
  deriving Repr, DecidableEq

/-- `UpdateFailed` surfaced to the host polling framework. -/
structure UpdateFailed where
  msg : String
  deriving Repr, DecidableEq

/-- Coordinator-side state relevant to a fetch cycle. -/
structure CoordState where
  sync_enabled : Bool
  last_update_time : Option Int
  data : Option PollResult
  entry_data : List (String × ConfValue)
  deriving Repr, DecidableEq

/-- Everything observable from one `_async_update_data` run. -/
structure UpdateOutcome where
  result : Except UpdateFailed PollResult
  client : ClientState
  coord : CoordState
  calls : List Call
  refreshCalls : Nat
  /-- The data written by `async_update_entry`, when a write was issued. -/
  persistWrite : Option (List (String × ConfValue))
  deriving Repr, DecidableEq

/-- `LivlyDataUpdateCoordinator._async_update_data` (coordinator.py
lines 73-99), with `_update_stored_tokens` inlined as in the source.
`utcnow` is the value `dt_util.utcnow()` would report. -/
def async_update_data (now utcnow : Int) (renv1 renv2 : Http RefreshBody)
    (uenv : Http UserMeBody) (penv : Http PackagesBody)
    (c : ClientState) (st : CoordState) : UpdateOutcome :=
  if !st.sync_enabled then
    match st.data with
    | some d =>
      { result := .ok d, client := c, coord := st, calls := [], refreshCalls := 0,
        persistWrite := none }
    | none =>
      { result := .ok ⟨[], 0⟩, client := c, coord := st, calls := [], refreshCalls := 0,
        persistWrite := none }
  else
    match get_pending_packages now renv1 renv2 uenv penv c with
    | (.ok packages, c', cs, n) =>
      let (entry', wrote) := update_stored_tokens c' st.entry_data
      { result := .ok ⟨packages, packages.length⟩
        client := c'
        coord := { st with
          entry_data := if wrote then entry' else st.entry_data
          last_update_time := some utcnow }
        calls := cs
        refreshCalls := n
        persistWrite := if wrote then some entry' else none }
    | (.error (.authError m), c', cs, n) =>
      { result := .error ⟨s!"Authentication error: {m}"⟩, client := c', coord := st,
        calls := cs, refreshCalls := n, persistWrite := none }
    | (.error (.apiError m), c', cs, n) =>
      { result := .error ⟨s!"API error: {m}"⟩, client := c', coord := st,
        calls := cs, refreshCalls := n, persistWrite := none }

/-! ## Dictionary lemmas -/

theorem dictGet_cons (p : String × ConfValue) (l : List (String × ConfValue)) (k : String) :
    dictGet (p :: l) k = if p.1 == k then p.2 else dictGet l k := by
  unfold dictGet
  rw [List.find?_cons]
  by_cases h : p.1 == k <;> simp [h]

theorem dictSet_cons (p : String × ConfValue) (t : List (String × ConfValue))
    (k : String) (v : ConfValue) (hp : (p.1 == k) = false) :
    dictSet (p :: t) k v = p :: dictSet t k v := by
  unfold dictSet
  simp only [List.any_cons, hp, Bool.false_or]
  by_cases h : t.any (fun q => q.1 == k)
  · rw [if_pos h, if_pos h, List.map_cons, if_neg (by simp [hp])]
  · rw [if_neg h, if_neg h, List.cons_append]

theorem dictSet_cons_hit (p : String × ConfValue) (t : List (String × ConfValue))
    (k : String) (v : ConfValue) (hp : (p.1 == k) = true) :
    dictSet (p :: t) k v =
      (k, v) :: t.map (fun q => if q.1 == k then (k, v) else q) := by
  unfold dictSet
  rw [if_pos (by simp [List.any_cons, hp]), List.map_cons, if_pos hp]

theorem dictGet_dictSet_self (d : List (String × ConfValue)) (k : String) (v : ConfValue) :
    dictGet (dictSet d k v) k = v := by
  induction d with
  | nil =>
    have h : dictSet [] k v = [(k, v)] := by simp [dictSet]
    rw [h, dictGet_cons, if_pos (by simp)]
  | cons p t ih =>
    by_cases hp : (p.1 == k) = true
    · rw [dictSet_cons_hit p t k v hp, dictGet_cons, if_pos (by simp)]
    · rw [dictSet_cons p t k v (by simpa using hp), dictGet_cons, if_neg hp]
      exact ih

theorem dictGet_mapOverwrite (t : List (String × ConfValue)) (k k' : String)
    (v : ConfValue) (hkk : k ≠ k') :
    dictGet (t.map (fun q => if q.1 == k then (k, v) else q)) k' = dictGet t k' := by
  induction t with
  | nil => rfl
  | cons q t ih =>
    simp only [List.map_cons]
    by_cases hq : (q.1 == k) = true
    · have hq1 : q.1 = k := by simpa using hq
      have h1 : ¬ ((k == k') = true) := by simpa using hkk
      have h2 : ¬ ((q.1 == k') = true) := by rw [hq1]; simpa using hkk
      rw [if_pos hq, dictGet_cons, dictGet_cons, if_neg h1, if_neg h2]
      exact ih
    · rw [if_neg hq, dictGet_cons, dictGet_cons]
      by_cases h : (q.1 == k') = true
      · rw [if_pos h, if_pos h]
      · rw [if_neg h, if_neg h]
        exact ih

theorem dictGet_dictSet_ne (d : List (String × ConfValue)) (k k' : String)
    (v : ConfValue) (h : k' ≠ k) :
    dictGet (dictSet d k v) k' = dictGet d k' := by
  induction d with
  | nil =>
    have hset : dictSet [] k v = [(k, v)] := by simp [dictSet]
    rw [hset, dictGet_cons, if_neg (by simpa using (Ne.symm h))]
  | cons p t ih =>
    by_cases hp : (p.1 == k) = true
    · have hp1 : p.1 = k := by simpa using hp
      rw [dictSet_cons_hit p t k v hp, dictGet_cons, dictGet_cons,
        if_neg (show ¬ ((k == k') = true) by simpa using (Ne.symm h)),
        if_neg (show ¬ ((p.1 == k') = true) by rw [hp1]; simpa using (Ne.symm h))]
      exact dictGet_mapOverwrite t k k' v (Ne.symm h)
    · rw [dictSet_cons p t k v (by simpa using hp), dictGet_cons, dictGet_cons]
      by_cases hq : (p.1 == k') = true
      · rw [if_pos hq, if_pos hq]
      · rw [if_neg hq, if_neg hq]
        exact ih

/-! ## Claim theorems -/

/-- C8: for every client state with no refresh token held,
`refresh_access_token` fails immediately with AuthError, issues no HTTP
request, and leaves the credential set unchanged. -/
theorem C8_refresh_without_token (now : Int) (resp : Http RefreshBody) (s : ClientState)
    (h : s.refresh_token = none) :
    refresh_access_token now resp s =
      (.error (.authError "No refresh token available"), s, [], 1) := by
  simp [refresh_access_token, strFalsy, h]

theorem C8_refresh_without_token_witness :
    refresh_access_token 5 (.response 200 ⟨"A2", 3600, none, none⟩)
        ⟨some "A", none, some "I", 100, some 7⟩ =
      (.error (.authError "No refresh token available"),
        ⟨some "A", none, some "I", 100, some 7⟩, [], 1) :=
  C8_refresh_without_token 5 (.response 200 ⟨"A2", 3600, none, none⟩)
    ⟨some "A", none, some "I", 100, some 7⟩ rfl

/-- C4: every successful `refresh_access_token` call (HTTP 200) updates
`access_token` and `token_expires_at` unconditionally
(`expires_at = now + expires_in`), and updates `refresh_token` /
`id_token` only when the response supplies those keys, retaining the
previous values otherwise. -/
theorem C4_refresh_success (now : Int) (b : RefreshBody) (s : ClientState)
    (h : strFalsy s.refresh_token = false) :
    (refresh_access_token now (.response 200 b) s).1 = .ok true ∧
    (refresh_access_token now (.response 200 b) s).2.1.access_token = some b.access_token ∧
    (refresh_access_token now (.response 200 b) s).2.1.token_expires_at = now + b.expires_in ∧
    (∀ r, b.refresh_token = some r →
      (refresh_access_token now (.response 200 b) s).2.1.refresh_token = some r) ∧
    (b.refresh_token = none →
      (refresh_access_token now (.response 200 b) s).2.1.refresh_token = s.refresh_token) ∧
    (∀ i, b.id_token = some i →
      (refresh_access_token now (.response 200 b) s).2.1.id_token = some i) ∧
    (b.id_token = none →
      (refresh_access_token now (.response 200 b) s).2.1.id_token = s.id_token) := by
  refine ⟨by simp [refresh_access_token, h], by simp [refresh_access_token, h],
    by simp [refresh_access_token, h], fun r hr => by simp [refresh_access_token, h, hr],
    fun hn => by simp [refresh_access_token, h, hn],
    fun i hi => by simp [refresh_access_token, h, hi],
    fun hn => by simp [refresh_access_token, h, hn]⟩

theorem C4_refresh_success_witness :
    (refresh_access_token 10 (.response 200 ⟨"A2", 3600, some "R2", none⟩)
      ⟨some "A", some "R", some "I", 100, none⟩).1 = .ok true ∧
    (refresh_access_token 10 (.response 200 ⟨"A2", 3600, some "R2", none⟩)
      ⟨some "A", some "R", some "I", 100, none⟩).2.1.token_expires_at = 10 + 3600 :=
  ⟨(C4_refresh_success 10 ⟨"A2", 3600, some "R2", none⟩
      ⟨some "A", some "R", some "I", 100, none⟩ rfl).1,
   (C4_refresh_success 10 ⟨"A2", 3600, some "R2", none⟩
      ⟨some "A", some "R", some "I", 100, none⟩ rfl).2.2.1⟩

/-- C5: `verify_otp` on a 200 response updates access, refresh and id
tokens atomically and sets `expires_at = now + expires_in`; on a non-200
response or a transport failure it raises AuthError and leaves the
credential set completely unchanged. -/
theorem C5_verify_otp (now : Int) (s : ClientState) :
    (∀ b : TokenBundle,
      verify_otp now (.response 200 b) s =
        (.ok b,
          { s with
            access_token := some b.access_token
            refresh_token := some b.refresh_token
            id_token := some b.id_token
            token_expires_at := now + b.expires_in },
          [.postOauthToken], 0)) ∧
    (∀ (st : Nat) (b : TokenBundle), st ≠ 200 →
      verify_otp now (.response st b) s =
        (.error (.authError ("Invalid OTP code: " ++ toString st)), s,
          [.postOauthToken], 0)) ∧
    (∀ m, verify_otp now (.transportErr m) s =
      (.error (.authError ("Connection error: " ++ m)), s, [.postOauthToken], 0)) := by
  refine ⟨fun b => by simp [verify_otp], fun st b hst => ?_, fun m => ?_⟩
  · have hb : (st == 200) = false := by simpa using hst
    simp only [verify_otp, hb, Bool.false_eq_true, if_false, toString, String.append_empty]
  · simp only [verify_otp, toString, String.append_empty]

theorem C5_verify_otp_witness :
    verify_otp 100 (.response 401 ⟨"x", "y", "z", 10⟩)
        ⟨some "A", some "R", some "I", 100, none⟩ =
      (.error (.authError ("Invalid OTP code: " ++ toString 401)),
        ⟨some "A", some "R", some "I", 100, none⟩, [.postOauthToken], 0) :=
  (C5_verify_otp 100 ⟨some "A", some "R", some "I", 100, none⟩).2.1 401
    ⟨"x", "y", "z", 10⟩ (by decide)

/-- C3: when `sync_enabled` is false, a fetch cycle issues no HTTP
request and returns the previous PollResult verbatim (or the zero-value
result if none exists); client state, coordinator state and persisted
configuration are untouched. -/
theorem C3_paused_refresh (now utcnow : Int) (r1 r2 : Http RefreshBody)
    (u : Http UserMeBody) (p : Http PackagesBody) (c : ClientState) (st : CoordState)
    (h : st.sync_enabled = false) :
    async_update_data now utcnow r1 r2 u p c st =
      { result := .ok ((st.data).getD ⟨[], 0⟩), client := c, coord := st,
        calls := [], refreshCalls := 0, persistWrite := none } := by
  cases hd : st.data <;> simp [async_update_data, h, hd]

theorem C3_paused_refresh_witness :
    async_update_data 0 1 (.transportErr "t") (.transportErr "t") (.transportErr "t")
        (.transportErr "t") ⟨some "A", some "R", some "I", 100, some 3⟩
        ⟨false, some 17, some ⟨[⟨[("id", "1")]⟩], 1⟩, [("phone_number", .str "+15551234567")]⟩ =
      { result := .ok ⟨[⟨[("id", "1")]⟩], 1⟩
        client := ⟨some "A", some "R", some "I", 100, some 3⟩
        coord := ⟨false, some 17, some ⟨[⟨[("id", "1")]⟩], 1⟩,
          [("phone_number", .str "+15551234567")]⟩
        calls := [], refreshCalls := 0, persistWrite := none } :=
  C3_paused_refresh 0 1 (.transportErr "t") (.transportErr "t") (.transportErr "t")
    (.transportErr "t") ⟨some "A", some "R", some "I", 100, some 3⟩
    ⟨false, some 17, some ⟨[⟨[("id", "1")]⟩], 1⟩, [("phone_number", .str "+15551234567")]⟩ rfl

/-- `refresh_access_token` always reports exactly one refresh invocation. -/
theorem refresh_access_token_count (now : Int) (resp : Http RefreshBody) (s : ClientState) :
    (refresh_access_token now resp s).2.2.2 = 1 := by
  unfold refresh_access_token
  by_cases h : strFalsy s.refresh_token
  · simp [h]
  · cases resp with
    | transportErr m => simp [h]
    | response st b => by_cases h2 : (st == 200) <;> simp [h, h2]

/-- C1 (amended): `_ensure_valid_token` fails with AuthError when no
access token is present; when the token expires more than 300 seconds
from now it performs no network call and leaves the credential set
unchanged; when an access token is present and it is expired or expires
in strictly less than 300 seconds, exactly one `refresh_access_token`
call is triggered before returning (at exactly 300 seconds to expiry no
refresh occurs). -/
theorem C1_ensure_valid_token (now : Int) (resp : Http RefreshBody) (s : ClientState) :
    (s.access_token = none →
      ensure_valid_token now resp s = (.error (.authError "Not authenticated"), s, [], 0)) ∧
    (s.token_expires_at - now > 300 →
      (ensure_valid_token now resp s).2.1 = s ∧
      (ensure_valid_token now resp s).2.2.1 = [] ∧
      (ensure_valid_token now resp s).2.2.2 = 0) ∧
    (strFalsy s.access_token = false → s.token_expires_at - now < 300 →
      ensure_valid_token now resp s =
        ((refresh_access_token now resp s).1.map (fun _ => ()),
          (refresh_access_token now resp s).2) ∧
      (ensure_valid_token now resp s).2.2.2 = 1) := by
  refine ⟨fun h => by simp [ensure_valid_token, strFalsy, h], fun h => ?_, fun ha ht => ?_⟩
  · by_cases ha : strFalsy s.access_token
    · simp [ensure_valid_token, ha]
    · have hng : ¬ (now > s.token_expires_at - 300) := by omega
      simp [ensure_valid_token, ha, hng]
  · have hgt : now > s.token_expires_at - 300 := by omega
    have heq : ensure_valid_token now resp s =
        ((refresh_access_token now resp s).1.map (fun _ => ()),
          (refresh_access_token now resp s).2) := by
      simp only [ensure_valid_token, ha, Bool.false_eq_true, if_false, if_pos hgt]
      rcases hr : refresh_access_token now resp s with ⟨r, s', cs, n⟩
      cases r <;> simp [Except.map]
    refine ⟨heq, ?_⟩
    rw [heq]
    exact refresh_access_token_count now resp s

theorem C1_ensure_valid_token_witness :
    ensure_valid_token 0 (.response 200 ⟨"A2", 3600, none, none⟩)
        ⟨none, some "R", none, 1000, none⟩ =
      (.error (.authError "Not authenticated"), ⟨none, some "R", none, 1000, none⟩, [], 0) ∧
    (ensure_valid_token 0 (.response 200 ⟨"A2", 3600, none, none⟩)
        ⟨some "A", some "R", some "I", 1000, none⟩).2.2.1 = [] ∧
    (ensure_valid_token 900 (.response 200 ⟨"A2", 3600, none, none⟩)
        ⟨some "A", some "R", some "I", 1000, none⟩).2.2.2 = 1 :=
  ⟨(C1_ensure_valid_token 0 (.response 200 ⟨"A2", 3600, none, none⟩)
      ⟨none, some "R", none, 1000, none⟩).1 rfl,
   ((C1_ensure_valid_token 0 (.response 200 ⟨"A2", 3600, none, none⟩)
      ⟨some "A", some "R", some "I", 1000, none⟩).2.1 (by decide)).2.1,
   ((C1_ensure_valid_token 900 (.response 200 ⟨"A2", 3600, none, none⟩)
      ⟨some "A", some "R", some "I", 1000, none⟩).2.2 rfl (by decide)).2⟩

/-- C1 counterexample: an access token expiring in exactly 300 seconds
is "expiring within 300 seconds", yet `_ensure_valid_token` performs no
refresh call there (the code refreshes only strictly past
`expires_at - 300`): it returns successfully with an unchanged
credential set, an empty call list and zero refresh invocations. -/
theorem C1_boundary_counterexample :
    (ClientState.mk (some "A") (some "R") (some "I") 300 none).token_expires_at - (0 : Int)
        ≤ 300 ∧
    ensure_valid_token 0 (.response 200 ⟨"A2", 3600, some "R2", some "I2"⟩)
        ⟨some "A", some "R", some "I", 300, none⟩ =
      (.ok (), ⟨some "A", some "R", some "I", 300, none⟩, [], 0) :=
  ⟨by decide, by rfl⟩

/-- C10: when the stored user id equals 0 the falsiness test
`if not self._user_id` treats it as absent: `get_pending_packages`
invokes `get_user_info` before the packages request even though a user
id value is held. -/
theorem C10_user_id_zero (now : Int) (r1 r2 : Http RefreshBody) (ub : UserMeBody)
    (pb : PackagesBody) (s : ClientState)
    (hacc : strFalsy s.access_token = false)
    (hfresh : ¬ now > s.token_expires_at - 300)
    (hid : s.user_id = some 0) :
    get_pending_packages now r1 r2 (.response 200 ub) (.response 200 pb) s =
      (.ok ((pb.Data).getD []), { s with user_id := some ub.userId },
        [.getUserMe, .postPackages (some ub.userId)], 0) := by
  simp [get_pending_packages, ensure_valid_token, get_user_info, intFalsy, hacc, hfresh, hid]

theorem C10_user_id_zero_witness :
    get_pending_packages 0 (.transportErr "na") (.transportErr "na") (.response 200 ⟨42⟩)
        (.response 200 ⟨some [⟨[("id", "p1")]⟩]⟩)
        ⟨some "A", some "R", some "I", 1000, some 0⟩ =
      (.ok [⟨[("id", "p1")]⟩], ⟨some "A", some "R", some "I", 1000, some 42⟩,
        [.getUserMe, .postPackages (some 42)], 0) :=
  C10_user_id_zero 0 (.transportErr "na") (.transportErr "na") ⟨42⟩
    ⟨some [⟨[("id", "p1")]⟩]⟩ ⟨some "A", some "R", some "I", 1000, some 0⟩
    rfl (by decide) rfl

/-- The calls attempted by `_ensure_valid_token` are at most one POST to
the token endpoint. -/
theorem ensure_calls_cases (now : Int) (resp : Http RefreshBody) (s : ClientState) :
    (ensure_valid_token now resp s).2.2.1 = [] ∨
    (ensure_valid_token now resp s).2.2.1 = [Call.postOauthToken] := by
  unfold ensure_valid_token refresh_access_token
  by_cases ha : strFalsy s.access_token
  · simp [ha]
  · by_cases ht : now > s.token_expires_at - 300
    · by_cases hr : strFalsy s.refresh_token
      · simp [ha, ht, hr]
      · cases resp with
        | transportErr m => simp [ha, ht, hr]
        | response st b => by_cases h2 : (st == 200) <;> simp [ha, ht, hr, h2]
    · simp [ha, ht]

/-- A successful `get_user_info` run's call list ends with the user-info
GET, which occurs nowhere earlier in the list. -/
theorem get_user_info_ok_calls (now : Int) (r2 : Http RefreshBody) (uenv : Http UserMeBody)
    (s : ClientState) (ud : UserMeBody) (s2 : ClientState) (cs2 : List Call) (n2 : Nat)
    (h : get_user_info now r2 uenv s = (.ok ud, s2, cs2, n2)) :
    ∃ pre, cs2 = pre ++ [Call.getUserMe] ∧ Call.getUserMe ∉ pre := by
  unfold get_user_info at h
  rcases he : ensure_valid_token now r2 s with ⟨r, s1, cs, n⟩
  rw [he] at h
  cases r with
  | error e => simp at h
  | ok _ =>
    cases uenv with
    | transportErr m => simp at h
    | response st b =>
      by_cases h2 : (st == 200)
      · simp only [h2, if_true, Prod.mk.injEq] at h
        refine ⟨cs, h.2.2.1.symm, ?_⟩
        have hc := ensure_calls_cases now r2 s
        rw [he] at hc
        rcases hc with h1 | h1
        · have h1' : cs = [] := h1
          simp [h1']
        · have h1' : cs = [Call.postOauthToken] := h1
          simp [h1']
      · simp [h2] at h

/-- C9: `get_pending_packages` with no cached user id performs exactly
one `get_user_info` call, immediately before the packages request; in
either case the operation returns the sequence under the response's `Data`
key, or the empty sequence when that key is absent. -/
theorem C9_get_pending_packages (now : Int) (r1 r2 : Http RefreshBody)
    (uenv : Http UserMeBody) (pb : PackagesBody) (s s1 s2 : ClientState)
    (cs1 cs2 : List Call) (n1 n2 : Nat) (ud : UserMeBody)
    (hens : ensure_valid_token now r1 s = (.ok (), s1, cs1, n1)) :
    (s1.user_id = none →
      get_user_info now r2 uenv s1 = (.ok ud, s2, cs2, n2) →
      get_pending_packages now r1 r2 uenv (.response 200 pb) s =
        (.ok ((pb.Data).getD []), s2, cs1 ++ cs2 ++ [.postPackages s2.user_id], n1 + n2) ∧
      ∃ pre, cs1 ++ cs2 = pre ++ [Call.getUserMe] ∧ Call.getUserMe ∉ pre) ∧
    (intFalsy s1.user_id = false →
      get_pending_packages now r1 r2 uenv (.response 200 pb) s =
        (.ok ((pb.Data).getD []), s1, cs1 ++ [.postPackages s1.user_id], n1)) := by
  constructor
  · intro hid hgui
    constructor
    · unfold get_pending_packages
      rw [hens]
      simp only [intFalsy, hid, if_true]
      rw [hgui]
      simp [List.append_assoc]
    · obtain ⟨pre2, hpre2, hnotin⟩ :=
        get_user_info_ok_calls now r2 uenv s1 ud s2 cs2 n2 hgui
      refine ⟨cs1 ++ pre2, by rw [hpre2, List.append_assoc], ?_⟩
      have hc := ensure_calls_cases now r1 s
      rw [hens] at hc
      rcases hc with h1 | h1
      · have h1' : cs1 = [] := h1
        simp [h1', List.mem_append, hnotin]
      · have h1' : cs1 = [Call.postOauthToken] := h1
        simp [h1', List.mem_append, hnotin]
  · intro hcached
    unfold get_pending_packages
    rw [hens]
    simp [hcached]

theorem C9_get_pending_packages_witness :
    (get_pending_packages 0 (.transportErr "na") (.transportErr "na") (.response 200 ⟨42⟩)
        (.response 200 ⟨none⟩) ⟨some "A", some "R", some "I", 1000, none⟩ =
      (.ok [], ⟨some "A", some "R", some "I", 1000, some 42⟩,
        [Call.getUserMe, Call.postPackages (some 42)], 0)) ∧
    ∃ pre, ([] : List Call) ++ [Call.getUserMe] = pre ++ [Call.getUserMe] ∧
      Call.getUserMe ∉ pre :=
  (C9_get_pending_packages 0 (.transportErr "na") (.transportErr "na") (.response 200 ⟨42⟩)
      ⟨none⟩ ⟨some "A", some "R", some "I", 1000, none⟩
      ⟨some "A", some "R", some "I", 1000, none⟩
      ⟨some "A", some "R", some "I", 1000, some 42⟩
      [] [Call.getUserMe] 0 0 ⟨42⟩ rfl).1 rfl rfl

/-- C7: every transport-layer failure in the five network operations is
re-raised as AuthError (auth calls) or ApiError (data calls), carrying
the transport message; no raw transport exception escapes, since every
operation's outcome is an `Except Err`. -/
theorem C7_transport_wrapping :
    (∀ (m : String) (s : ClientState),
      request_otp (.transportErr m) s =
        (.error (.authError ("Connection error: " ++ m)), s, [.postPasswordlessStart], 0)) ∧
    (∀ (now : Int) (m : String) (s : ClientState),
      verify_otp now (.transportErr m) s =
        (.error (.authError ("Connection error: " ++ m)), s, [.postOauthToken], 0)) ∧
    (∀ (now : Int) (m : String) (s : ClientState), strFalsy s.refresh_token = false →
      refresh_access_token now (.transportErr m) s =
        (.error (.authError ("Connection error: " ++ m)), s, [.postOauthToken], 1)) ∧
    (∀ (now : Int) (r : Http RefreshBody) (m : String) (s s1 : ClientState)
        (cs : List Call) (n : Nat),
      ensure_valid_token now r s = (.ok (), s1, cs, n) →
      get_user_info now r (.transportErr m) s =
        (.error (.apiError ("Connection error: " ++ m)), s1, cs ++ [.getUserMe], n)) ∧
    (∀ (now : Int) (r1 r2 : Http RefreshBody) (u : Http UserMeBody) (m : String)
        (s s1 : ClientState) (cs : List Call) (n : Nat),
      ensure_valid_token now r1 s = (.ok (), s1, cs, n) →
      intFalsy s1.user_id = false →
      get_pending_packages now r1 r2 u (.transportErr m) s =
        (.error (.apiError ("Connection error: " ++ m)), s1,
          cs ++ [.postPackages s1.user_id], n)) := by
  refine ⟨fun m s => ?_, fun now m s => ?_, fun now m s h => ?_,
    fun now r m s s1 cs n hens => ?_, fun now r1 r2 u m s s1 cs n hens hid => ?_⟩
  · simp only [request_otp, toString, String.append_empty]
  · simp only [verify_otp, toString, String.append_empty]
  · simp only [refresh_access_token, h, Bool.false_eq_true, if_false, toString,
      String.append_empty]
  · unfold get_user_info
    rw [hens]
    simp only [toString, String.append_empty]
  · unfold get_pending_packages
    rw [hens]
    simp [hid, toString, String.append_empty]

theorem C7_transport_wrapping_witness :
    (request_otp (.transportErr "boom") ⟨some "A", some "R", some "I", 1000, some 3⟩ =
      (.error (.authError ("Connection error: " ++ "boom")),
        ⟨some "A", some "R", some "I", 1000, some 3⟩, [.postPasswordlessStart], 0)) ∧
    (verify_otp 0 (.transportErr "boom") ⟨some "A", some "R", some "I", 1000, some 3⟩ =
      (.error (.authError ("Connection error: " ++ "boom")),
        ⟨some "A", some "R", some "I", 1000, some 3⟩, [.postOauthToken], 0)) ∧
    (refresh_access_token 0 (.transportErr "boom")
        ⟨some "A", some "R", some "I", 1000, some 3⟩ =
      (.error (.authError ("Connection error: " ++ "boom")),
        ⟨some "A", some "R", some "I", 1000, some 3⟩, [.postOauthToken], 1)) ∧
    (get_user_info 0 (.transportErr "z") (.transportErr "boom")
        ⟨some "A", some "R", some "I", 1000, some 3⟩ =
      (.error (.apiError ("Connection error: " ++ "boom")),
        ⟨some "A", some "R", some "I", 1000, some 3⟩, [] ++ [.getUserMe], 0)) ∧
    (get_pending_packages 0 (.transportErr "z") (.transportErr "z") (.transportErr "z")
        (.transportErr "boom") ⟨some "A", some "R", some "I", 1000, some 3⟩ =
      (.error (.apiError ("Connection error: " ++ "boom")),
        ⟨some "A", some "R", some "I", 1000, some 3⟩,
        [] ++ [.postPackages (some 3)], 0)) :=
  ⟨C7_transport_wrapping.1 "boom" ⟨some "A", some "R", some "I", 1000, some 3⟩,
   C7_transport_wrapping.2.1 0 "boom" ⟨some "A", some "R", some "I", 1000, some 3⟩,
   C7_transport_wrapping.2.2.1 0 "boom" ⟨some "A", some "R", some "I", 1000, some 3⟩ rfl,
   C7_transport_wrapping.2.2.2.1 0 (.transportErr "z") "boom"
     ⟨some "A", some "R", some "I", 1000, some 3⟩
     ⟨some "A", some "R", some "I", 1000, some 3⟩ [] 0 rfl,
   C7_transport_wrapping.2.2.2.2 0 (.transportErr "z") (.transportErr "z")
     (.transportErr "z") "boom" ⟨some "A", some "R", some "I", 1000, some 3⟩
     ⟨some "A", some "R", some "I", 1000, some 3⟩ [] 0 rfl rfl⟩

/-- Full characterization of `_update_stored_tokens`: a write happens
iff one of the four token fields differs; afterwards the four token
keys hold the client's values and all other keys are untouched. -/
theorem update_stored_tokens_spec (c : ClientState) (entry : List (String × ConfValue)) :
    ((update_stored_tokens c entry).2 = true ↔
      (optStrVal c.access_token ≠ dictGet entry CONF_ACCESS_TOKEN ∨
       optStrVal c.refresh_token ≠ dictGet entry CONF_REFRESH_TOKEN ∨
       optStrVal c.id_token ≠ dictGet entry CONF_ID_TOKEN ∨
       ConfValue.num c.token_expires_at ≠ dictGet entry CONF_TOKEN_EXPIRES_AT)) ∧
    dictGet (update_stored_tokens c entry).1 CONF_ACCESS_TOKEN = optStrVal c.access_token ∧
    dictGet (update_stored_tokens c entry).1 CONF_REFRESH_TOKEN = optStrVal c.refresh_token ∧
    dictGet (update_stored_tokens c entry).1 CONF_ID_TOKEN = optStrVal c.id_token ∧
    dictGet (update_stored_tokens c entry).1 CONF_TOKEN_EXPIRES_AT
      = ConfValue.num c.token_expires_at ∧
    (∀ k, k ≠ CONF_ACCESS_TOKEN → k ≠ CONF_REFRESH_TOKEN → k ≠ CONF_ID_TOKEN →
      k ≠ CONF_TOKEN_EXPIRES_AT →
      dictGet (update_stored_tokens c entry).1 k = dictGet entry k) ∧
    ((update_stored_tokens c entry).2 = false → (update_stored_tokens c entry).1 = entry) := by
  have gRA : ∀ d v, dictGet (dictSet d CONF_ACCESS_TOKEN v) CONF_REFRESH_TOKEN
      = dictGet d CONF_REFRESH_TOKEN := fun d v => dictGet_dictSet_ne d _ _ v (by decide)
  have gIA : ∀ d v, dictGet (dictSet d CONF_ACCESS_TOKEN v) CONF_ID_TOKEN
      = dictGet d CONF_ID_TOKEN := fun d v => dictGet_dictSet_ne d _ _ v (by decide)
  have gIR : ∀ d v, dictGet (dictSet d CONF_REFRESH_TOKEN v) CONF_ID_TOKEN
      = dictGet d CONF_ID_TOKEN := fun d v => dictGet_dictSet_ne d _ _ v (by decide)
  have gEA : ∀ d v, dictGet (dictSet d CONF_ACCESS_TOKEN v) CONF_TOKEN_EXPIRES_AT
      = dictGet d CONF_TOKEN_EXPIRES_AT := fun d v => dictGet_dictSet_ne d _ _ v (by decide)
  have gER : ∀ d v, dictGet (dictSet d CONF_REFRESH_TOKEN v) CONF_TOKEN_EXPIRES_AT
      = dictGet d CONF_TOKEN_EXPIRES_AT := fun d v => dictGet_dictSet_ne d _ _ v (by decide)
  have gEI : ∀ d v, dictGet (dictSet d CONF_ID_TOKEN v) CONF_TOKEN_EXPIRES_AT
      = dictGet d CONF_TOKEN_EXPIRES_AT := fun d v => dictGet_dictSet_ne d _ _ v (by decide)
  have gAR : ∀ d v, dictGet (dictSet d CONF_REFRESH_TOKEN v) CONF_ACCESS_TOKEN
      = dictGet d CONF_ACCESS_TOKEN := fun d v => dictGet_dictSet_ne d _ _ v (by decide)
  have gAI : ∀ d v, dictGet (dictSet d CONF_ID_TOKEN v) CONF_ACCESS_TOKEN
      = dictGet d CONF_ACCESS_TOKEN := fun d v => dictGet_dictSet_ne d _ _ v (by decide)
  have gAE : ∀ d v, dictGet (dictSet d CONF_TOKEN_EXPIRES_AT v) CONF_ACCESS_TOKEN
      = dictGet d CONF_ACCESS_TOKEN := fun d v => dictGet_dictSet_ne d _ _ v (by decide)
  have gRI : ∀ d v, dictGet (dictSet d CONF_ID_TOKEN v) CONF_REFRESH_TOKEN
      = dictGet d CONF_REFRESH_TOKEN := fun d v => dictGet_dictSet_ne d _ _ v (by decide)
  have gRE : ∀ d v, dictGet (dictSet d CONF_TOKEN_EXPIRES_AT v) CONF_REFRESH_TOKEN
      = dictGet d CONF_REFRESH_TOKEN := fun d v => dictGet_dictSet_ne d _ _ v (by decide)
  have gIE : ∀ d v, dictGet (dictSet d CONF_TOKEN_EXPIRES_AT v) CONF_ID_TOKEN
      = dictGet d CONF_ID_TOKEN := fun d v => dictGet_dictSet_ne d _ _ v (by decide)
  refine ⟨?_, ?_, ?_, ?_, ?_, ?_, ?_⟩
  case _ =>
    by_cases h1 : optStrVal c.access_token = dictGet entry CONF_ACCESS_TOKEN <;>
    by_cases h2 : optStrVal c.refresh_token = dictGet entry CONF_REFRESH_TOKEN <;>
    by_cases h3 : optStrVal c.id_token = dictGet entry CONF_ID_TOKEN <;>
    by_cases h4 : ConfValue.num c.token_expires_at = dictGet entry CONF_TOKEN_EXPIRES_AT <;>
      simp [update_stored_tokens, h1, h2, h3, h4, gRA, gIA, gIR, gEA, gER, gEI]
  case _ =>
    by_cases h1 : optStrVal c.access_token = dictGet entry CONF_ACCESS_TOKEN <;>
    by_cases h2 : optStrVal c.refresh_token = dictGet entry CONF_REFRESH_TOKEN <;>
    by_cases h3 : optStrVal c.id_token = dictGet entry CONF_ID_TOKEN <;>
    by_cases h4 : ConfValue.num c.token_expires_at = dictGet entry CONF_TOKEN_EXPIRES_AT <;>
      simp [update_stored_tokens, h1, h2, h3, h4, gRA, gIA, gIR, gEA, gER, gEI,
        gAR, gAI, gAE, dictGet_dictSet_self]
  case _ =>
    by_cases h1 : optStrVal c.access_token = dictGet entry CONF_ACCESS_TOKEN <;>
    by_cases h2 : optStrVal c.refresh_token = dictGet entry CONF_REFRESH_TOKEN <;>
    by_cases h3 : optStrVal c.id_token = dictGet entry CONF_ID_TOKEN <;>
    by_cases h4 : ConfValue.num c.token_expires_at = dictGet entry CONF_TOKEN_EXPIRES_AT <;>
      simp [update_stored_tokens, h1, h2, h3, h4, gRA, gIA, gIR, gEA, gER, gEI,
        gRI, gRE, dictGet_dictSet_self]
  case _ =>
    by_cases h1 : optStrVal c.access_token = dictGet entry CONF_ACCESS_TOKEN <;>
    by_cases h2 : optStrVal c.refresh_token = dictGet entry CONF_REFRESH_TOKEN <;>
    by_cases h3 : optStrVal c.id_token = dictGet entry CONF_ID_TOKEN <;>
    by_cases h4 : ConfValue.num c.token_expires_at = dictGet entry CONF_TOKEN_EXPIRES_AT <;>
      simp [update_stored_tokens, h1, h2, h3, h4, gRA, gIA, gIR, gEA, gER, gEI,
        gIE, dictGet_dictSet_self]
  case _ =>
    by_cases h1 : optStrVal c.access_token = dictGet entry CONF_ACCESS_TOKEN <;>
    by_cases h2 : optStrVal c.refresh_token = dictGet entry CONF_REFRESH_TOKEN <;>
    by_cases h3 : optStrVal c.id_token = dictGet entry CONF_ID_TOKEN <;>
    by_cases h4 : ConfValue.num c.token_expires_at = dictGet entry CONF_TOKEN_EXPIRES_AT <;>
      simp [update_stored_tokens, h1, h2, h3, h4, gRA, gIA, gIR, gEA, gER, gEI,
        dictGet_dictSet_self]
  case _ =>
    intro k hk1 hk2 hk3 hk4
    have fA : ∀ d v, dictGet (dictSet d CONF_ACCESS_TOKEN v) k = dictGet d k :=
      fun d v => dictGet_dictSet_ne d _ k v hk1
    have fR : ∀ d v, dictGet (dictSet d CONF_REFRESH_TOKEN v) k = dictGet d k :=
      fun d v => dictGet_dictSet_ne d _ k v hk2
    have fI : ∀ d v, dictGet (dictSet d CONF_ID_TOKEN v) k = dictGet d k :=
      fun d v => dictGet_dictSet_ne d _ k v hk3
    have fE : ∀ d v, dictGet (dictSet d CONF_TOKEN_EXPIRES_AT v) k = dictGet d k :=
      fun d v => dictGet_dictSet_ne d _ k v hk4
    by_cases h1 : optStrVal c.access_token = dictGet entry CONF_ACCESS_TOKEN <;>
    by_cases h2 : optStrVal c.refresh_token = dictGet entry CONF_REFRESH_TOKEN <;>
    by_cases h3 : optStrVal c.id_token = dictGet entry CONF_ID_TOKEN <;>
    by_cases h4 : ConfValue.num c.token_expires_at = dictGet entry CONF_TOKEN_EXPIRES_AT <;>
      simp [update_stored_tokens, h1, h2, h3, h4, gRA, gIA, gIR, gEA, gER, gEI,
        fA, fR, fI, fE]
  case _ =>
    by_cases h1 : optStrVal c.access_token = dictGet entry CONF_ACCESS_TOKEN <;>
    by_cases h2 : optStrVal c.refresh_token = dictGet entry CONF_REFRESH_TOKEN <;>
    by_cases h3 : optStrVal c.id_token = dictGet entry CONF_ID_TOKEN <;>
    by_cases h4 : ConfValue.num c.token_expires_at = dictGet entry CONF_TOKEN_EXPIRES_AT <;>
      simp [update_stored_tokens, h1, h2, h3, h4, gRA, gIA, gIR, gEA, gER, gEI]

/-- C2: after a successful fetch cycle the coordinator issues a
persistence write iff at least one of the four token fields of the
client differs from the persisted configuration; the written
configuration holds the client's current values for the four token
keys, and every other persisted key is unchanged; when nothing differs
the stored configuration stays as it was. -/
theorem C2_token_persistence (now utcnow : Int) (r1 r2 : Http RefreshBody)
    (u : Http UserMeBody) (p : Http PackagesBody) (c c' : ClientState) (st : CoordState)
    (packages : List Package) (cs : List Call) (n : Nat)
    (hsync : st.sync_enabled = true)
    (hok : get_pending_packages now r1 r2 u p c = (.ok packages, c', cs, n)) :
    ((async_update_data now utcnow r1 r2 u p c st).persistWrite.isSome ↔
      (optStrVal c'.access_token ≠ dictGet st.entry_data CONF_ACCESS_TOKEN ∨
       optStrVal c'.refresh_token ≠ dictGet st.entry_data CONF_REFRESH_TOKEN ∨
       optStrVal c'.id_token ≠ dictGet st.entry_data CONF_ID_TOKEN ∨
       ConfValue.num c'.token_expires_at ≠ dictGet st.entry_data CONF_TOKEN_EXPIRES_AT)) ∧
    (∀ d', (async_update_data now utcnow r1 r2 u p c st).persistWrite = some d' →
      dictGet d' CONF_ACCESS_TOKEN = optStrVal c'.access_token ∧
      dictGet d' CONF_REFRESH_TOKEN = optStrVal c'.refresh_token ∧
      dictGet d' CONF_ID_TOKEN = optStrVal c'.id_token ∧
      dictGet d' CONF_TOKEN_EXPIRES_AT = ConfValue.num c'.token_expires_at ∧
      (∀ k, k ≠ CONF_ACCESS_TOKEN → k ≠ CONF_REFRESH_TOKEN → k ≠ CONF_ID_TOKEN →
        k ≠ CONF_TOKEN_EXPIRES_AT → dictGet d' k = dictGet st.entry_data k)) ∧
    ((async_update_data now utcnow r1 r2 u p c st).persistWrite = none →
      (async_update_data now utcnow r1 r2 u p c st).coord.entry_data = st.entry_data) := by
  have hspec := update_stored_tokens_spec c' st.entry_data
  rcases hu : update_stored_tokens c' st.entry_data with ⟨d', w⟩
  rw [hu] at hspec
  have hout : async_update_data now utcnow r1 r2 u p c st =
      { result := .ok ⟨packages, packages.length⟩, client := c'
        coord := { st with
          entry_data := if w then d' else st.entry_data
          last_update_time := some utcnow }
        calls := cs, refreshCalls := n
        persistWrite := if w then some d' else none } := by
    simp [async_update_data, hsync, hok, hu]
  rw [hout]
  cases w with
  | true =>
    have hdiff : optStrVal c'.access_token ≠ dictGet st.entry_data CONF_ACCESS_TOKEN ∨
        optStrVal c'.refresh_token ≠ dictGet st.entry_data CONF_REFRESH_TOKEN ∨
        optStrVal c'.id_token ≠ dictGet st.entry_data CONF_ID_TOKEN ∨
        ConfValue.num c'.token_expires_at ≠ dictGet st.entry_data CONF_TOKEN_EXPIRES_AT :=
      hspec.1.mp rfl
    refine ⟨by simpa using hdiff, fun d'' hd => ?_, by simp⟩
    have hd' : d'' = d' := by simpa using hd.symm
    subst hd'
    exact ⟨hspec.2.1, hspec.2.2.1, hspec.2.2.2.1, hspec.2.2.2.2.1, hspec.2.2.2.2.2.1⟩
  | false =>
    have hnd : ¬ (optStrVal c'.access_token ≠ dictGet st.entry_data CONF_ACCESS_TOKEN ∨
        optStrVal c'.refresh_token ≠ dictGet st.entry_data CONF_REFRESH_TOKEN ∨
        optStrVal c'.id_token ≠ dictGet st.entry_data CONF_ID_TOKEN ∨
        ConfValue.num c'.token_expires_at ≠ dictGet st.entry_data CONF_TOKEN_EXPIRES_AT) :=
      fun hD => by simpa using hspec.1.mpr hD
    refine ⟨by simpa using hnd, fun d'' hd => by simp at hd, by simp⟩

theorem C2_token_persistence_witness :
    dictGet [("phone_number", ConfValue.str "+15551234567"),
        ("access_token", ConfValue.str "A2"), ("refresh_token", ConfValue.str "R1"),
        ("id_token", ConfValue.str "I1"), ("token_expires_at", ConfValue.num 1000)]
        "phone_number"
      = dictGet [("phone_number", ConfValue.str "+15551234567"),
        ("access_token", ConfValue.str "A1"), ("refresh_token", ConfValue.str "R1"),
        ("id_token", ConfValue.str "I1"), ("token_expires_at", ConfValue.num 1000)]
        "phone_number" :=
  ((C2_token_persistence 0 7 (.transportErr "z") (.transportErr "z") (.transportErr "z")
      (.response 200 ⟨none⟩) ⟨some "A2", some "R1", some "I1", 1000, some 3⟩
      ⟨some "A2", some "R1", some "I1", 1000, some 3⟩
      ⟨true, none, none,
        [("phone_number", ConfValue.str "+15551234567"),
         ("access_token", ConfValue.str "A1"), ("refresh_token", ConfValue.str "R1"),
         ("id_token", ConfValue.str "I1"), ("token_expires_at", ConfValue.num 1000)]⟩
      [] [Call.postPackages (some 3)] 0 rfl rfl).2.1
    [("phone_number", ConfValue.str "+15551234567"),
     ("access_token", ConfValue.str "A2"), ("refresh_token", ConfValue.str "R1"),
     ("id_token", ConfValue.str "I1"), ("token_expires_at", ConfValue.num 1000)]
    rfl).2.2.2.2 "phone_number" (by decide) (by decide) (by decide) (by decide)

/-- C6: when `get_pending_packages` raises AuthError or ApiError, the
fetch cycle surfaces a single `UpdateFailed` carrying the underlying
message, performs no further calls (no retry), issues no persistence
write, and leaves the coordinator state — including `last_update_time`
and the stored configuration — untouched. -/
theorem C6_fetch_failure (now utcnow : Int) (r1 r2 : Http RefreshBody) (u : Http UserMeBody)
    (p : Http PackagesBody) (c c' : ClientState) (st : CoordState) (e : Err)
    (cs : List Call) (n : Nat)
    (hsync : st.sync_enabled = true)
    (hfail : get_pending_packages now r1 r2 u p c = (.error e, c', cs, n)) :
    async_update_data now utcnow r1 r2 u p c st =
      { result := .error ⟨match e with
          | .authError m => "Authentication error: " ++ m
          | .apiError m => "API error: " ++ m⟩
        client := c', coord := st, calls := cs, refreshCalls := n
        persistWrite := none } := by
  cases e with
  | authError m =>
    simp only [async_update_data, hsync, Bool.not_true, Bool.false_eq_true, if_false, hfail,
      toString, String.append_empty]
  | apiError m =>
    simp only [async_update_data, hsync, Bool.not_true, Bool.false_eq_true, if_false, hfail,
      toString, String.append_empty]

theorem C6_fetch_failure_witness :
    async_update_data 0 7 (.transportErr "z") (.transportErr "z") (.transportErr "z")
        (.transportErr "boom") ⟨some "A", some "R", some "I", 1000, some 3⟩
        ⟨true, some 5, none, [("access_token", ConfValue.str "A")]⟩ =
      { result := .error ⟨"API error: " ++ ("Connection error: " ++ "boom")⟩
        client := ⟨some "A", some "R", some "I", 1000, some 3⟩
        coord := ⟨true, some 5, none, [("access_token", ConfValue.str "A")]⟩
        calls := [] ++ [Call.postPackages (some 3)], refreshCalls := 0
        persistWrite := none } :=
  C6_fetch_failure 0 7 (.transportErr "z") (.transportErr "z") (.transportErr "z")
    (.transportErr "boom") ⟨some "A", some "R", some "I", 1000, some 3⟩
    ⟨some "A", some "R", some "I", 1000, some 3⟩
    ⟨true, some 5, none, [("access_token", ConfValue.str "A")]⟩
    (.apiError ("Connection error: " ++ "boom"))
    ([] ++ [Call.postPackages (some 3)]) 0 rfl rfl

end Livly
